import Mathlib

/-!
Verification development for the `django-esewa` payment integration layer
(`esewa/payment.py`).

The development shallowly embeds the Python module: machine-level byte values
are `Nat`s reduced modulo `2 ^ 32` where 32-bit overflow matters, fallible
Python code (exceptions) becomes `Except String`, and the Python object
attributes that only exist after `create_signature` has been called are
`Option` fields.  The `requests`/`base64`/`json` standard-library calls are
modelled at their interface: an HTTP response is a record of status code and
parsed body, and the base64 + UTF-8 + JSON decoding pipeline is represented by
its `Except`-valued result.
-/

/-! ## 32-bit word arithmetic over `Nat` -/

def w32mod : Nat := 4294967296

def add32 (a b : Nat) : Nat := (a + b) % w32mod

def not32 (a : Nat) : Nat := 4294967295 - a

def rotr32 (n x : Nat) : Nat := ((x >>> n) ||| (x <<< (32 - n))) % w32mod

/-! ## SHA-256 (FIPS 180-4), over byte lists -/

def sha256K : List Nat :=
  [1116352408, 1899447441, 3049323471, 3921009573, 961987163, 1508970993,
   2453635748, 2870763221, 3624381080, 310598401, 607225278, 1426881987,
   1925078388, 2162078206, 2614888103, 3248222580, 3835390401, 4022224774,
   264347078, 604807628, 770255983, 1249150122, 1555081692, 1996064986,
   2554220882, 2821834349, 2952996808, 3210313671, 3336571891, 3584528711,
   113926993, 338241895, 666307205, 773529912, 1294757372, 1396182291,
   1695183700, 1986661051, 2177026350, 2456956037, 2730485921, 2820302411,
   3259730800, 3345764771, 3516065817, 3600352804, 4094571909, 275423344,
   430227734, 506948616, 659060556, 883997877, 958139571, 1322822218,
   1537002063, 1747873779, 1955562222, 2024104815, 2227730452, 2361852424,
   2428436474, 2756734187, 3204031479, 3329325298]

def sha256H0 : List Nat :=
  [1779033703, 3144134277, 1013904242, 2773480762,
   1359893119, 2600822924, 528734635, 1541459225]

def ssig0 (x : Nat) : Nat := Nat.xor (rotr32 7 x) (Nat.xor (rotr32 18 x) (x >>> 3))

def ssig1 (x : Nat) : Nat := Nat.xor (rotr32 17 x) (Nat.xor (rotr32 19 x) (x >>> 10))

def bsig0 (x : Nat) : Nat := Nat.xor (rotr32 2 x) (Nat.xor (rotr32 13 x) (rotr32 22 x))

def bsig1 (x : Nat) : Nat := Nat.xor (rotr32 6 x) (Nat.xor (rotr32 11 x) (rotr32 25 x))

def chFn (e f g : Nat) : Nat := Nat.xor (e &&& f) (not32 e &&& g)

def majFn (a b c : Nat) : Nat := Nat.xor (a &&& b) (Nat.xor (a &&& c) (b &&& c))

/-- Group a byte list into big-endian 32-bit words (trailing partial group dropped;
inputs are always a multiple of 4 bytes after padding). -/
def chunkWords : List Nat → List Nat
  | b0 :: b1 :: b2 :: b3 :: rest => (((b0 * 256 + b1) * 256 + b2) * 256 + b3) :: chunkWords rest
  | _ => []

/-- Group a word list into blocks of 16, with fuel for structural recursion. -/
def blocks16Fuel : Nat → List Nat → List (List Nat)
  | 0, _ => []
  | _, [] => []
  | n + 1, ws => ws.take 16 :: blocks16Fuel n (ws.drop 16)

def blocks16 (ws : List Nat) : List (List Nat) := blocks16Fuel ws.length ws

/-- Extend a 16-word block by `fuel` further schedule words. -/
def extendW : Nat → List Nat → List Nat
  | 0, w => w
  | n + 1, w =>
      let i := w.length
      let wi := add32 (add32 (ssig1 (w.getD (i - 2) 0)) (w.getD (i - 7) 0))
                      (add32 (ssig0 (w.getD (i - 15) 0)) (w.getD (i - 16) 0))
      extendW n (w ++ [wi])

def fullSchedule (block : List Nat) : List Nat := extendW 48 block

def compressRound (s : Nat × Nat × Nat × Nat × Nat × Nat × Nat × Nat) (kw : Nat × Nat) :
    Nat × Nat × Nat × Nat × Nat × Nat × Nat × Nat :=
  let (a, b, c, d, e, f, g, h) := s
  let t1 := add32 h (add32 (bsig1 e) (add32 (chFn e f g) (add32 kw.1 kw.2)))
  let t2 := add32 (bsig0 a) (majFn a b c)
  (add32 t1 t2, a, b, c, add32 d t1, e, f, g)

def compressBlock (h : List Nat) (block : List Nat) : List Nat :=
  let w := fullSchedule block
  let s := (sha256K.zip w).foldl compressRound
    (h.getD 0 0, h.getD 1 0, h.getD 2 0, h.getD 3 0, h.getD 4 0, h.getD 5 0, h.getD 6 0, h.getD 7 0)
  let (a, b, c, d, e, f, g, hh) := s
  [add32 (h.getD 0 0) a, add32 (h.getD 1 0) b, add32 (h.getD 2 0) c, add32 (h.getD 3 0) d,
   add32 (h.getD 4 0) e, add32 (h.getD 5 0) f, add32 (h.getD 6 0) g, add32 (h.getD 7 0) hh]

def wordBytes (w : Nat) : List Nat :=
  [w / 16777216 % 256, w / 65536 % 256, w / 256 % 256, w % 256]

def lenBytes64 (n : Nat) : List Nat :=
  [n / 2 ^ 56 % 256, n / 2 ^ 48 % 256, n / 2 ^ 40 % 256, n / 2 ^ 32 % 256,
   n / 2 ^ 24 % 256, n / 2 ^ 16 % 256, n / 2 ^ 8 % 256, n % 256]

/-- SHA-256 digest (32 bytes) of a byte list. -/
def sha256 (msg : List Nat) : List Nat :=
  let padZeros := (64 - (msg.length + 9) % 64) % 64
  let padded := msg ++ [0x80] ++ List.replicate padZeros 0 ++ lenBytes64 (msg.length * 8)
  let blocks := blocks16 (chunkWords padded)
  ((blocks.foldl compressBlock sha256H0).map wordBytes).flatten

/-! ## HMAC-SHA256 and base64 (RFC 2104 / RFC 4648) -/

def hmacSha256 (key msg : List Nat) : List Nat :=
  let k0 := if 64 < key.length then sha256 key else key
  let kpad := k0 ++ List.replicate (64 - k0.length) 0
  let ipad := kpad.map (fun b => Nat.xor b 0x36)
  let opad := kpad.map (fun b => Nat.xor b 0x5c)
  sha256 (opad ++ sha256 (ipad ++ msg))

def b64Char (n : Nat) : Char :=
  "ABCDEFGHIJKLMNOPQRSTUVWXYZabcdefghijklmnopqrstuvwxyz0123456789+/".data.getD n 'A'

/-- Standard-alphabet base64 encoding with padding (`Char.ofNat 61` is the
padding character). -/
def base64Encode : List Nat → String
  | [] => ""
  | [b0] =>
      String.mk [b64Char (b0 >>> 2), b64Char ((b0 &&& 3) <<< 4), Char.ofNat 61, Char.ofNat 61]
  | [b0, b1] =>
      String.mk [b64Char (b0 >>> 2), b64Char (((b0 &&& 3) <<< 4) ||| (b1 >>> 4)),
                 b64Char ((b1 &&& 15) <<< 2), Char.ofNat 61]
  | b0 :: b1 :: b2 :: rest =>
      String.mk [b64Char (b0 >>> 2), b64Char (((b0 &&& 3) <<< 4) ||| (b1 >>> 4)),
                 b64Char (((b1 &&& 15) <<< 2) ||| (b2 >>> 6)), b64Char (b2 &&& 63)]
        ++ base64Encode rest

/-- UTF-8 encoding of one character. -/
def utf8Char (c : Char) : List Nat :=
  let n := c.toNat
  if n < 0x80 then [n]
  else if n < 0x800 then [0xC0 ||| (n >>> 6), 0x80 ||| (n &&& 0x3F)]
  else if n < 0x10000 then
    [0xE0 ||| (n >>> 12), 0x80 ||| ((n >>> 6) &&& 0x3F), 0x80 ||| (n &&& 0x3F)]
  else
    [0xF0 ||| (n >>> 18), 0x80 ||| ((n >>> 12) &&& 0x3F), 0x80 ||| ((n >>> 6) &&& 0x3F),
     0x80 ||| (n &&& 0x3F)]

def strBytes (s : String) : List Nat := (s.data.map utf8Char).flatten

/-- base64(HMAC-SHA256(secret, message)) over UTF-8 encodings, as a string. -/
def hmacSha256Base64 (secret message : String) : String :=
  base64Encode (hmacSha256 (strBytes secret) (strBytes message))

/-! ## A model of decoded JSON values

`verify_signature` calls `json.loads` on the decoded callback body; the result
can be any JSON value, which the code then subscripts like a `dict`.  JSON
numbers are modelled as integers (the payloads at issue are string-valued
maps; no claim depends on float formatting).  An `obj` is the parsed `dict`
as an association list in insertion order with distinct keys. -/

inductive Json where
  | null
  | bool (b : Bool)
  | num (n : Int)
  | str (s : String)
  | obj (fields : List (String × Json))

def Json.isObj : Json → Bool
  | .obj _ => true
  | _ => false

mutual

/-- Python `repr` of a decoded JSON value (used by f-string formatting of
containers; `\x27` is the single-quote character). -/
def pyRepr : Json → String
  | .null => "None"
  | .bool true => "True"
  | .bool false => "False"
  | .num n => toString n
  | .str s => "\x27" ++ s ++ "\x27"
  | .obj fs => "\x7b" ++ String.intercalate ", " (pyReprFields fs) ++ "\x7d"

/-- Renders each `dict` entry as Python `repr` does. -/
def pyReprFields : List (String × Json) → List String
  | [] => []
  | (k, v) :: rest => ("\x27" ++ k ++ "\x27: " ++ pyRepr v) :: pyReprFields rest

end

/-- Python `str` of a decoded JSON value, as an f-string interpolates it. -/
def pyStr : Json → String
  | .str s => s
  | j => pyRepr j

/-- Python `d[key]`: `KeyError` when absent, `TypeError` when the value is not
a `dict`. -/
def dictGet (data : Json) (key : String) : Except String Json :=
  match data with
  | .obj fields =>
      match fields.lookup key with
      | some v => Except.ok v
      | none => Except.error ("KeyError: " ++ key)
  | _ => Except.error "TypeError: value is not subscriptable"

/-- Python `d.get(key, default)`: `AttributeError` when not a `dict`. -/
def dictGetD (data : Json) (key : String) (dflt : Json) : Except String Json :=
  match data with
  | .obj fields => Except.ok ((fields.lookup key).getD dflt)
  | _ => Except.error "AttributeError: value has no attribute get"

/-- Python attribute access on an attribute that may not have been assigned
yet: `AttributeError` when absent. -/
def attrGet (v : Option α) (name : String) : Except String α :=
  match v with
  | some x => Except.ok x
  | none => Except.error ("AttributeError: " ++ name)

/-- Python `==` between a decoded JSON value and a `str`: `True` exactly when
the value is a string with identical contents (no coercion across types). -/
def pyEqStr (j : Json) (s : String) : Bool :=
  match j with
  | .str t => t == s
  | _ => false

/-- Python `s.split(sep)` for a one-character separator: splits at every
occurrence; the empty string yields `[""]`. -/
def splitCharAux (sep : Char) : List Char → List Char → List String
  | [], acc => [String.mk acc.reverse]
  | c :: cs, acc =>
      if c = sep then String.mk acc.reverse :: splitCharAux sep cs []
      else splitCharAux sep cs (c :: acc)

def pySplit (sep : Char) (s : String) : List String := splitCharAux sep s.data []


/-! ## The payment session (`EsewaPayment` in `esewa/payment.py`)

`amount`, `uuid` and `signature` are attributes that `__init__` does not set;
they exist only after `create_signature` has run, so they are `Option` fields
(`none` models the absent attribute, whose access raises `AttributeError`). -/

structure EsewaPayment where
  secret_key : String
  product_code : String
  success_url : String
  failure_url : String
  amount : Option Int
  uuid : Option String
  signature : Option String

/-- `EsewaPayment.__init__` with every argument supplied explicitly (the
settings/default fallback is configuration plumbing outside the core). -/
def initPayment (product_code success_url failure_url secret_key : String) : EsewaPayment :=
  { secret_key := secret_key, product_code := product_code, success_url := success_url,
    failure_url := failure_url, amount := none, uuid := none, signature := none }

inductive SignError where
  | missingField (name : String)

/-- Modelled from the spec: `esewa/signature.py` (the `generate_signature`
function imported by `esewa/payment.py`) is not among the provided sources.
Section 4.1 defines the canonical message of `sign`: join `name=value` for
each field in the supplied order, separated by a single comma, with no
leading/trailing separators and no extra whitespace; a field without a value
is a `MissingFieldError` naming the absent field. -/
def canonicalMessage (fields_in_order : List String) (values : List (String × String)) :
    Except SignError String :=
  match fields_in_order with
  | [] => Except.ok ""
  | [name] =>
      match values.lookup name with
      | some v => Except.ok (name ++ "=" ++ v)
      | none => Except.error (SignError.missingField name)
  | name :: rest =>
      match values.lookup name with
      | some v =>
          match canonicalMessage rest values with
          | Except.ok m => Except.ok (name ++ "=" ++ v ++ "," ++ m)
          | Except.error e => Except.error e
      | none => Except.error (SignError.missingField name)

/-- Modelled from the spec: `SignatureEngine.sign` of section 4.1 —
HMAC-SHA256 of the UTF-8 canonical message keyed by the UTF-8 secret,
base64-encoded with the standard alphabet and padding. -/
def signFields (fields_in_order : List String) (values : List (String × String))
    (secret : String) : Except SignError String :=
  match canonicalMessage fields_in_order values with
  | Except.ok m => Except.ok (hmacSha256Base64 secret m)
  | Except.error e => Except.error e

/-- Modelled from the spec: `generate_signature(total_amount, transaction_uuid,
secret_key, product_code)` from the absent `esewa/signature.py`, which section
4.2 says delegates to the engine with the fixed order
`total_amount, transaction_uuid, product_code` and the stringified values. -/
def generate_signature (total_amount : Int) (transaction_uuid : String)
    (secret_key product_code : String) : String :=
  hmacSha256Base64 secret_key
    ("total_amount=" ++ toString total_amount ++ ",transaction_uuid=" ++ transaction_uuid
      ++ ",product_code=" ++ product_code)

/-- `EsewaPayment.create_signature`: stores amount and uuid, computes and
stores the signature, and returns it.  The mutated session is returned
alongside the returned signature. -/
def create_signature (p : EsewaPayment) (total_amount : Int) (transaction_uuid : String) :
    EsewaPayment × String :=
  let sig := generate_signature total_amount transaction_uuid p.secret_key p.product_code
  ({ p with amount := some total_amount, uuid := some transaction_uuid, signature := some sig },
   sig)

/-- `EsewaPayment.generate_form`'s `payload` dict, with each value already
converted by the f-string interpolation that renders the form (`tax_amount`
is the integer `0` in the source and formats as `"0"`).  Reading `amount`,
`uuid` or `signature` before `create_signature` raises `AttributeError`. -/
def generate_form_payload (p : EsewaPayment) : Except String (List (String × String)) :=
  match p.amount, p.uuid, p.signature with
  | some a, some u, some sig =>
      Except.ok
        [("amount", toString a),
         ("product_delivery_charge", "0"),
         ("product_service_charge", "0"),
         ("total_amount", toString a),
         ("tax_amount", "0"),
         ("product_code", p.product_code),
         ("transaction_uuid", u),
         ("success_url", p.success_url),
         ("failure_url", p.failure_url),
         ("signed_field_names", "total_amount,transaction_uuid,product_code"),
         ("signature", sig)]
  | none, _, _ => Except.error "AttributeError: amount"
  | _, none, _ => Except.error "AttributeError: uuid"
  | _, _, none => Except.error "AttributeError: signature"

/-- `EsewaPayment.generate_form`: concatenated hidden `<input>` fields. -/
def generate_form (p : EsewaPayment) : Except String String :=
  match generate_form_payload p with
  | Except.ok payload =>
      Except.ok (String.join (payload.map (fun kv =>
        "<input type=\"hidden\" name=\"" ++ kv.1 ++ "\" value=\"" ++ kv.2 ++ "\">")))
  | Except.error e => Except.error e

/-! ## Remote status (`get_status`, `is_completed`)

`requests.get` is modelled as a function from the request URL to a response
record; `jsonBody` is the result of `response.json()` (an `Except` because
parsing can fail). -/

structure HttpResponse where
  status_code : Nat
  text : String
  jsonBody : Except String Json

def status_url_testing (product_code : String) (amount : Int) (uuid : String) : String :=
  "https://uat.esewa.com.np/api/epay/transaction/status/?product_code=" ++ product_code
    ++ "&total_amount=" ++ toString amount ++ "&transaction_uuid=" ++ uuid

def status_url_prod (product_code : String) (amount : Int) (uuid : String) : String :=
  "https://epay.esewa.com.np/api/epay/transaction/status/?product_code=" ++ product_code
    ++ "&total_amount=" ++ toString amount ++ "&transaction_uuid=" ++ uuid

/-- `EsewaPayment.get_status`: builds the environment's URL, issues the GET,
raises on a non-200 status code, then returns `response_data.get("status",
"UNKNOWN")` verbatim.  Errors are raised to the caller (there is no
try/except here). -/
def get_status (p : EsewaPayment) (dev : Bool) (http : String → HttpResponse) :
    Except String Json :=
  match p.amount, p.uuid with
  | some a, some u =>
      let url := if dev then status_url_testing p.product_code a u
                 else status_url_prod p.product_code a u
      let response := http url
      if response.status_code ≠ 200 then
        Except.error ("Error fetching status: " ++ response.text)
      else
        match response.jsonBody with
        | Except.ok response_data => dictGetD response_data "status" (Json.str "UNKNOWN")
        | Except.error e => Except.error e
  | none, _ => Except.error "AttributeError: amount"
  | _, none => Except.error "AttributeError: uuid"

/-- `EsewaPayment.is_completed`: `get_status(dev) == "COMPLETE"`; any
exception from `get_status` propagates. -/
def is_completed (p : EsewaPayment) (dev : Bool) (http : String → HttpResponse) :
    Except String Bool :=
  match get_status p dev http with
  | Except.ok s => Except.ok (pyEqStr s "COMPLETE")
  | Except.error e => Except.error e

/-! ## Equality (`EsewaPayment.__eq__`) -/

/-- A Python value handed to `__eq__`: either an `EsewaPayment` instance or a
value of any other type (carrying an opaque tag). -/
inductive PyValue where
  | payment (p : EsewaPayment)
  | other (tag : String)

/-- `EsewaPayment.__eq__`: `False` for non-`EsewaPayment` arguments, otherwise
compares `secret_key` and `product_code` only. -/
def eqMethod (p : EsewaPayment) (value : PyValue) : Bool :=
  match value with
  | PyValue.payment q => p.secret_key == q.secret_key && p.product_code == q.product_code
  | PyValue.other _ => false

/-! ## Signature verification (`verify_signature`)

The base64 + UTF-8 + JSON decoding of the body is Python standard-library
behaviour; it is modelled by its outcome, an `Except String Json` (`error`
for invalid base64, invalid UTF-8 or malformed JSON).  Everything after the
decode follows the source line by line. -/

/-- Python `",".join(f"{n}={data[n]}" for n in names)`: `KeyError` when a
named field is absent from the payload. -/
def joinMessage (data : Json) (names : List String) : Except String String :=
  match names with
  | [] => Except.ok ""
  | [n] =>
      match dictGet data n with
      | Except.ok v => Except.ok (n ++ "=" ++ pyStr v)
      | Except.error e => Except.error e
  | n :: rest =>
      match dictGet data n with
      | Except.ok v =>
          match joinMessage data rest with
          | Except.ok m => Except.ok (n ++ "=" ++ pyStr v ++ "," ++ m)
          | Except.error e => Except.error e
      | Except.error e => Except.error e

/-- Python `s.split(",")` requires a string receiver; any other decoded value
raises `AttributeError`. -/
def asSplitString (j : Json) : Except String String :=
  match j with
  | Json.str s => Except.ok s
  | _ => Except.error "AttributeError: value has no attribute split"

/-- The body of `verify_signature`'s `try` block, starting after the decode:
extract `signed_field_names` and `signature`, split the field names,
reconstruct the message (whose value is unused), read `self.signature`, and
compare the received signature against it. -/
def verifyBody (p : EsewaPayment) (decoded : Except String Json) :
    Except String (Bool × Option Json) :=
  match decoded with
  | Except.error e => Except.error e
  | Except.ok response_data =>
      match dictGet response_data "signed_field_names" with
      | Except.error e => Except.error e
      | Except.ok signed_field_names =>
          match dictGet response_data "signature" with
          | Except.error e => Except.error e
          | Except.ok received_signature =>
              match asSplitString signed_field_names with
              | Except.error e => Except.error e
              | Except.ok sfn =>
                  let field_names := pySplit ',' sfn
                  match joinMessage response_data field_names with
                  | Except.error e => Except.error e
                  | Except.ok _message =>
                      match attrGet p.signature "signature" with
                      | Except.error e => Except.error e
                      | Except.ok stored =>
                          let is_valid := pyEqStr received_signature stored
                          Except.ok (is_valid,
                            if is_valid then some response_data else none)

/-- `EsewaPayment.verify_signature`: the `try`/`except` folds every raised
error into `(False, None)`. -/
def verify_signature (p : EsewaPayment) (decoded : Except String Json) :
    Bool × Option Json :=
  match verifyBody p decoded with
  | Except.ok r => r
  | Except.error _ => (false, none)

/-! ## Helper lemmas -/

/-- When every named field is present in the payload, the message
reconstruction in `verify_signature` succeeds. -/
theorem joinMessage_ok (fields : List (String × Json)) :
    ∀ (names : List String), (∀ n ∈ names, (fields.lookup n).isSome) →
      ∃ m, joinMessage (Json.obj fields) names = Except.ok m := by
  intro names
  induction names with
  | nil => intro _; exact ⟨"", rfl⟩
  | cons a rest ih =>
      intro h
      have ha : (fields.lookup a).isSome := h a (List.mem_cons_self a rest)
      obtain ⟨v, hv⟩ := Option.isSome_iff_exists.mp ha
      cases rest with
      | nil => exact ⟨a ++ "=" ++ pyStr v, by simp [joinMessage, dictGet, hv]⟩
      | cons b bs =>
          obtain ⟨m, hm⟩ := ih (fun x hx => h x (List.mem_cons_of_mem a hx))
          exact ⟨a ++ "=" ++ pyStr v ++ "," ++ m, by simp [joinMessage, dictGet, hv, hm]⟩

/-- When some named field is absent from the payload, the message
reconstruction in `verify_signature` raises `KeyError`. -/
theorem joinMessage_error_of_missing (fields : List (String × Json)) :
    ∀ (names : List String) (n : String), n ∈ names → fields.lookup n = none →
      ∃ e, joinMessage (Json.obj fields) names = Except.error e := by
  intro names
  induction names with
  | nil => intro n hn _; exact absurd hn (List.not_mem_nil n)
  | cons a rest ih =>
      intro n hn habs
      cases hla : fields.lookup a with
      | none =>
          cases rest with
          | nil => exact ⟨"KeyError: " ++ a, by simp [joinMessage, dictGet, hla]⟩
          | cons b bs => exact ⟨"KeyError: " ++ a, by simp [joinMessage, dictGet, hla]⟩
      | some v =>
          have hne : n ≠ a := by
            intro hcontra
            rw [hcontra, hla] at habs
            exact Option.noConfusion habs
          have hrest : n ∈ rest := by
            rcases List.mem_cons.mp hn with h1 | h2
            · exact absurd h1 hne
            · exact h2
          cases rest with
          | nil => exact absurd hrest (List.not_mem_nil n)
          | cons b bs =>
              obtain ⟨e, he⟩ := ih n hrest habs
              exact ⟨e, by simp [joinMessage, dictGet, hla, he]⟩

/-- When some named field has no value, the canonical-message construction of
the signing engine fails with a `MissingFieldError` naming an absent field. -/
theorem canonicalMessage_error_of_missing (values : List (String × String)) :
    ∀ (names : List String) (n : String), n ∈ names → values.lookup n = none →
      ∃ m, canonicalMessage names values = Except.error (SignError.missingField m)
        ∧ m ∈ names ∧ values.lookup m = none := by
  intro names
  induction names with
  | nil => intro n hn _; exact absurd hn (List.not_mem_nil n)
  | cons a rest ih =>
      intro n hn habs
      cases hla : values.lookup a with
      | none =>
          cases rest with
          | nil =>
              exact ⟨a, by simp [canonicalMessage, hla], List.mem_cons_self a [], hla⟩
          | cons b bs =>
              exact ⟨a, by simp [canonicalMessage, hla], List.mem_cons_self a (b :: bs), hla⟩
      | some v =>
          have hne : n ≠ a := by
            intro hcontra
            rw [hcontra, hla] at habs
            exact Option.noConfusion habs
          have hrest : n ∈ rest := by
            rcases List.mem_cons.mp hn with h1 | h2
            · exact absurd h1 hne
            · exact h2
          cases rest with
          | nil => exact absurd hrest (List.not_mem_nil n)
          | cons b bs =>
              obtain ⟨m, hm, hmem, hmabs⟩ := ih n hrest habs
              exact ⟨m, by simp [canonicalMessage, hla, hm],
                     List.mem_cons_of_mem a hmem, hmabs⟩

/-- The concrete default session of the module's usage example: default
product code and URLs, default secret key, no signature yet. -/
def p100 : EsewaPayment :=
  initPayment "EPAYTEST" "http://localhost:8000/success/" "http://localhost:8000/failure/"
    "8gBm/:&EnhH.1/q"

set_option maxRecDepth 40000
set_option maxHeartbeats 2000000

/-- C1: on a session on which `create_signature` has been called, any decoded
callback payload that is a JSON object carrying `signed_field_names`,
`signature`, and a value for every field it names verifies as
`(true, payload)` exactly when its `signature` string equals the signature
stored by `create_signature`; the reconstructed canonical message is never
re-hashed with the secret, and the result depends only on that string
comparison. -/
theorem verify_signature_iff_stored_signature
    (p₀ : EsewaPayment) (ta : Int) (u : String)
    (fields : List (String × Json)) (sfn sig : String)
    (hsfn : fields.lookup "signed_field_names" = some (Json.str sfn))
    (hsig : fields.lookup "signature" = some (Json.str sig))
    (hall : ∀ n ∈ pySplit ',' sfn, (fields.lookup n).isSome) :
    verify_signature (create_signature p₀ ta u).1 (Except.ok (Json.obj fields)) =
      (sig == (create_signature p₀ ta u).2,
       if sig == (create_signature p₀ ta u).2 then some (Json.obj fields) else none) := by
  obtain ⟨m, hm⟩ := joinMessage_ok fields (pySplit ',' sfn) hall
  simp [verify_signature, verifyBody, dictGet, hsfn, hsig, asSplitString, hm, attrGet,
    create_signature, pyEqStr]

/-- C3: `verify_signature` never raises: a failed base64/UTF-8/JSON decode, a
non-object JSON top level, and a missing `signed_field_names` or `signature`
key all produce `(false, none)`. -/
theorem verify_signature_malformed_input_false_none (p : EsewaPayment) :
    (∀ e, verify_signature p (Except.error e) = (false, none))
    ∧ (∀ j : Json, j.isObj = false → verify_signature p (Except.ok j) = (false, none))
    ∧ (∀ fields : List (String × Json), fields.lookup "signed_field_names" = none →
        verify_signature p (Except.ok (Json.obj fields)) = (false, none))
    ∧ (∀ fields : List (String × Json), fields.lookup "signature" = none →
        verify_signature p (Except.ok (Json.obj fields)) = (false, none)) := by
  refine ⟨fun e => rfl, fun j hj => ?_, fun fields h => ?_, fun fields h => ?_⟩
  · cases j with
    | null => rfl
    | bool b => rfl
    | num n => rfl
    | str s => rfl
    | obj fields => simp [Json.isObj] at hj
  · simp [verify_signature, verifyBody, dictGet, h]
  · cases hsfn : fields.lookup "signed_field_names" with
    | none => simp [verify_signature, verifyBody, dictGet, hsfn]
    | some v => simp [verify_signature, verifyBody, dictGet, hsfn, h]

/-- C4: the signing engine fails with a `MissingFieldError` naming an absent
field whenever some field in the signing order has no value, and never
substitutes a default. -/
theorem signFields_missing_field_error
    (fields_in_order : List String) (values : List (String × String)) (secret : String)
    (n : String) (hmem : n ∈ fields_in_order) (habs : values.lookup n = none) :
    ∃ missing, signFields fields_in_order values secret =
        Except.error (SignError.missingField missing)
      ∧ missing ∈ fields_in_order ∧ values.lookup missing = none := by
  obtain ⟨m, hm, hmmem, hmabs⟩ :=
    canonicalMessage_error_of_missing values fields_in_order n hmem habs
  exact ⟨m, by simp [signFields, hm], hmmem, hmabs⟩

/-- C9: on a session on which `create_signature` has never been called,
`verify_signature` returns `(false, none)` for every input: the
`AttributeError` on reading the absent stored signature is absorbed by the
same `except` that handles malformed payloads. -/
theorem verify_signature_unsigned_session_false_none
    (p : EsewaPayment) (decoded : Except String Json) (h : p.signature = none) :
    verify_signature p decoded = (false, none) := by
  cases decoded with
  | error e => rfl
  | ok j =>
      cases h1 : dictGet j "signed_field_names" with
      | error e => simp [verify_signature, verifyBody, h1]
      | ok sfnv =>
          cases h2 : dictGet j "signature" with
          | error e => simp [verify_signature, verifyBody, h1, h2]
          | ok rcv =>
              cases h3 : asSplitString sfnv with
              | error e => simp [verify_signature, verifyBody, h1, h2, h3]
              | ok sfn =>
                  cases h4 : joinMessage j (pySplit ',' sfn) with
                  | error e => simp [verify_signature, verifyBody, h1, h2, h3, h4]
                  | ok m => simp [verify_signature, verifyBody, h1, h2, h3, h4, attrGet, h]

/-- C10: when the payload's own `signed_field_names` names a field the payload
does not carry, `verify_signature` returns `(false, none)` even if the
payload's signature equals the stored one, because the (otherwise unused)
message reconstruction raises `KeyError` before the comparison. -/
theorem verify_signature_missing_declared_field_false_none
    (p : EsewaPayment) (storedSig : String)
    (fields : List (String × Json)) (sfn sig n : String)
    (_hstored : p.signature = some storedSig)
    (hsfn : fields.lookup "signed_field_names" = some (Json.str sfn))
    (hsig : fields.lookup "signature" = some (Json.str sig))
    (_heq : sig = storedSig)
    (hmem : n ∈ pySplit ',' sfn)
    (habs : fields.lookup n = none) :
    verify_signature p (Except.ok (Json.obj fields)) = (false, none) := by
  obtain ⟨e, he⟩ := joinMessage_error_of_missing fields (pySplit ',' sfn) n hmem habs
  simp [verify_signature, verifyBody, dictGet, hsfn, hsig, asSplitString, he]

/-- The session after `create_signature(100, "11-201-13")` on the default
configuration, with the computed signature written out. -/
def signed100 : EsewaPayment :=
  { secret_key := "8gBm/:&EnhH.1/q", product_code := "EPAYTEST",
    success_url := "http://localhost:8000/success/",
    failure_url := "http://localhost:8000/failure/",
    amount := some 100, uuid := some "11-201-13",
    signature := some "5DZywcrTKD0gia/rsSMcrRHmJl+4Tbol6S+lWgdJ94E=" }

/-- `signed100` is exactly the state `create_signature` leaves behind. -/
theorem signed100_is_signed : signed100 = (create_signature p100 100 "11-201-13").1 := rfl

/-- C2: the outgoing canonical message joins `name=value` pairs with single
commas in the fixed order `total_amount, transaction_uuid, product_code`; for
the documented scenario the message is exactly
`total_amount=100,transaction_uuid=11-201-13,product_code=EPAYTEST`, and the
signature is the base64 HMAC-SHA256 of that message under the secret,
reproducible byte for byte. -/
theorem create_signature_canonical_message_test_vector :
    canonicalMessage ["total_amount", "transaction_uuid", "product_code"]
        [("total_amount", "100"), ("transaction_uuid", "11-201-13"),
         ("product_code", "EPAYTEST")]
      = Except.ok "total_amount=100,transaction_uuid=11-201-13,product_code=EPAYTEST"
    ∧ signFields ["total_amount", "transaction_uuid", "product_code"]
        [("total_amount", "100"), ("transaction_uuid", "11-201-13"),
         ("product_code", "EPAYTEST")] "8gBm/:&EnhH.1/q"
      = Except.ok "5DZywcrTKD0gia/rsSMcrRHmJl+4Tbol6S+lWgdJ94E="
    ∧ (∀ (p : EsewaPayment) (ta : Int) (u : String),
        (create_signature p ta u).2 = hmacSha256Base64 p.secret_key
          ("total_amount=" ++ toString ta ++ ",transaction_uuid=" ++ u
            ++ ",product_code=" ++ p.product_code))
    ∧ (create_signature p100 100 "11-201-13").2
      = hmacSha256Base64 "8gBm/:&EnhH.1/q"
          "total_amount=100,transaction_uuid=11-201-13,product_code=EPAYTEST"
    ∧ (create_signature p100 100 "11-201-13").2
      = "5DZywcrTKD0gia/rsSMcrRHmJl+4Tbol6S+lWgdJ94E=" := by
  have hmsg : ("total_amount=" ++ toString (100 : Int) ++ ",transaction_uuid=" ++ "11-201-13"
        ++ ",product_code=" ++ "EPAYTEST")
      = "total_amount=100,transaction_uuid=11-201-13,product_code=EPAYTEST" := by decide
  have hcanon : canonicalMessage ["total_amount", "transaction_uuid", "product_code"]
        [("total_amount", "100"), ("transaction_uuid", "11-201-13"),
         ("product_code", "EPAYTEST")]
      = Except.ok "total_amount=100,transaction_uuid=11-201-13,product_code=EPAYTEST" := rfl
  have hvec : hmacSha256Base64 "8gBm/:&EnhH.1/q"
        "total_amount=100,transaction_uuid=11-201-13,product_code=EPAYTEST"
      = "5DZywcrTKD0gia/rsSMcrRHmJl+4Tbol6S+lWgdJ94E=" := by decide
  have hgen : ∀ (p : EsewaPayment) (ta : Int) (u : String),
      (create_signature p ta u).2 = hmacSha256Base64 p.secret_key
        ("total_amount=" ++ toString ta ++ ",transaction_uuid=" ++ u
          ++ ",product_code=" ++ p.product_code) := fun _ _ _ => rfl
  have hsk : p100.secret_key = "8gBm/:&EnhH.1/q" := rfl
  have hpc : p100.product_code = "EPAYTEST" := rfl
  have hcreate : (create_signature p100 100 "11-201-13").2
      = hmacSha256Base64 "8gBm/:&EnhH.1/q"
          "total_amount=100,transaction_uuid=11-201-13,product_code=EPAYTEST" := by
    refine (hgen p100 100 "11-201-13").trans ?_
    rw [hsk, hpc]
    exact congrArg (hmacSha256Base64 "8gBm/:&EnhH.1/q") hmsg
  refine ⟨hcanon, ?_, hgen, hcreate, hcreate.trans hvec⟩
  simp [signFields, hcanon, hvec]

/-- C5 counterexample: on an HTTP 200 response whose `status` value is not one
of the enumerated transaction statuses, `get_status` returns that value
verbatim instead of resolving to `"UNKNOWN"`. -/
theorem get_status_unrecognized_status_counterexample :
    get_status signed100 true
        (fun _ => { status_code := 200, text := "",
                    jsonBody := Except.ok (Json.obj [("status", Json.str "NOT_A_STATUS")]) })
      = Except.ok (Json.str "NOT_A_STATUS")
    ∧ Json.str "NOT_A_STATUS" ≠ Json.str "UNKNOWN" :=
  ⟨rfl, by simp⟩

/-- C5 amended: a non-200 response raises a propagated error; an HTTP 200
object body without a `status` key resolves to `"UNKNOWN"`; a present
`status` value is returned verbatim, recognized or not. -/
theorem get_status_error_and_unknown_amended
    (p : EsewaPayment) (a : Int) (u : String) (dev : Bool)
    (ha : p.amount = some a) (hu : p.uuid = some u) :
    (∀ resp : HttpResponse, resp.status_code ≠ 200 →
        get_status p dev (fun _ => resp)
          = Except.error ("Error fetching status: " ++ resp.text))
    ∧ (∀ fields : List (String × Json), fields.lookup "status" = none →
        get_status p dev (fun _ => { status_code := 200, text := "",
                                     jsonBody := Except.ok (Json.obj fields) })
          = Except.ok (Json.str "UNKNOWN"))
    ∧ (∀ (fields : List (String × Json)) (v : Json), fields.lookup "status" = some v →
        get_status p dev (fun _ => { status_code := 200, text := "",
                                     jsonBody := Except.ok (Json.obj fields) })
          = Except.ok v) := by
  refine ⟨fun resp hresp => ?_, fun fields h => ?_, fun fields v h => ?_⟩
  · cases dev <;> simp [get_status, ha, hu, hresp]
  · cases dev <;> simp [get_status, ha, hu, dictGetD, h]
  · cases dev <;> simp [get_status, ha, hu, dictGetD, h]

/-- C6: `__eq__` compares only `secret_key` and `product_code`; amount, uuid
and signature are irrelevant, and a non-`EsewaPayment` argument is simply not
equal. -/
theorem eqMethod_secret_key_product_code_only :
    (∀ p q : EsewaPayment,
        eqMethod p (PyValue.payment q)
          = (p.secret_key == q.secret_key && p.product_code == q.product_code))
    ∧ (∀ p q : EsewaPayment,
        (eqMethod p (PyValue.payment q) = true
          ↔ (p.secret_key = q.secret_key ∧ p.product_code = q.product_code)))
    ∧ (∀ (p : EsewaPayment) (tag : String), eqMethod p (PyValue.other tag) = false) := by
  refine ⟨fun p q => rfl, fun p q => ?_, fun p t => rfl⟩
  simp [eqMethod]

/-- C7: `is_completed` is exactly the boolean test that `get_status` resolved
to `"COMPLETE"`: an HTTP 200 body with `status = "COMPLETE"` yields `true`,
an empty-object body yields `false`, and no other state is involved. -/
theorem is_completed_iff_status_complete
    (p : EsewaPayment) (dev : Bool) (a : Int) (u : String)
    (ha : p.amount = some a) (hu : p.uuid = some u) :
    (∀ http : String → HttpResponse,
        is_completed p dev http
          = (get_status p dev http).map (fun s => pyEqStr s "COMPLETE"))
    ∧ (∀ http : String → HttpResponse,
        (is_completed p dev http = Except.ok true
          ↔ get_status p dev http = Except.ok (Json.str "COMPLETE")))
    ∧ is_completed p dev
        (fun _ => { status_code := 200, text := "",
                    jsonBody := Except.ok (Json.obj [("status", Json.str "COMPLETE")]) })
      = Except.ok true
    ∧ is_completed p dev
        (fun _ => { status_code := 200, text := "", jsonBody := Except.ok (Json.obj []) })
      = Except.ok false := by
  refine ⟨fun http => ?_, fun http => ?_, ?_, ?_⟩
  · cases hgs : get_status p dev http with
    | error e => simp [is_completed, hgs, Except.map]
    | ok s => simp [is_completed, hgs, Except.map]
  · cases hgs : get_status p dev http with
    | error e => simp [is_completed, hgs]
    | ok s => cases s <;> simp [is_completed, hgs, pyEqStr]
  · cases dev <;> simp [is_completed, get_status, ha, hu, dictGetD, pyEqStr]
  · cases dev <;> simp [is_completed, get_status, ha, hu, dictGetD, pyEqStr]

/-- C8: on a signed session the rendered payload is exactly the eleven
documented fields, with `signed_field_names` the literal
`total_amount,transaction_uuid,product_code` and `signature` the stored
signature. -/
theorem generate_form_payload_field_set
    (p : EsewaPayment) (a : Int) (u : String) (sig : String)
    (ha : p.amount = some a) (hu : p.uuid = some u) (hs : p.signature = some sig) :
    generate_form_payload p = Except.ok
      [("amount", toString a),
       ("product_delivery_charge", "0"),
       ("product_service_charge", "0"),
       ("total_amount", toString a),
       ("tax_amount", "0"),
       ("product_code", p.product_code),
       ("transaction_uuid", u),
       ("success_url", p.success_url),
       ("failure_url", p.failure_url),
       ("signed_field_names", "total_amount,transaction_uuid,product_code"),
       ("signature", sig)] := by
  simp [generate_form_payload, ha, hu, hs]

/-- A callback payload declaring its own field order, carrying the session's
outbound signature. -/
def cbFieldsC1 : List (String × Json) :=
  [("transaction_uuid", Json.str "11-201-13"),
   ("signed_field_names", Json.str "transaction_uuid"),
   ("signature", Json.str "5DZywcrTKD0gia/rsSMcrRHmJl+4Tbol6S+lWgdJ94E=")]

/-- Witness for C1 at a concrete signed session and payload. -/
theorem verify_signature_iff_stored_signature_witness :
    verify_signature (create_signature p100 100 "11-201-13").1 (Except.ok (Json.obj cbFieldsC1))
      = (true, some (Json.obj cbFieldsC1)) := by
  have h := verify_signature_iff_stored_signature p100 100 "11-201-13" cbFieldsC1
    "transaction_uuid" "5DZywcrTKD0gia/rsSMcrRHmJl+4Tbol6S+lWgdJ94E=" rfl rfl (by decide)
  have e1 : signed100.signature = some "5DZywcrTKD0gia/rsSMcrRHmJl+4Tbol6S+lWgdJ94E=" := rfl
  have e2 : (create_signature p100 100 "11-201-13").1.signature
      = some ((create_signature p100 100 "11-201-13").2) := rfl
  have e3 := (e1.symm.trans (congrArg EsewaPayment.signature signed100_is_signed)).trans e2
  have hsig2 : (create_signature p100 100 "11-201-13").2
      = "5DZywcrTKD0gia/rsSMcrRHmJl+4Tbol6S+lWgdJ94E=" := (Option.some.inj e3).symm
  rw [hsig2] at h
  have hb : ("5DZywcrTKD0gia/rsSMcrRHmJl+4Tbol6S+lWgdJ94E="
      == "5DZywcrTKD0gia/rsSMcrRHmJl+4Tbol6S+lWgdJ94E=") = true := by decide
  rw [h, hb]
  simp

/-- Witness for C3 at concrete malformed inputs. -/
theorem verify_signature_malformed_input_false_none_witness :
    verify_signature p100 (Except.error "binascii: invalid base64") = (false, none)
    ∧ verify_signature p100 (Except.ok (Json.str "a bare JSON string")) = (false, none)
    ∧ verify_signature p100 (Except.ok (Json.obj [("signature", Json.str "s")])) = (false, none)
    ∧ verify_signature p100 (Except.ok (Json.obj [("signed_field_names", Json.str "x")]))
      = (false, none) :=
  ⟨(verify_signature_malformed_input_false_none p100).1 "binascii: invalid base64",
   (verify_signature_malformed_input_false_none p100).2.1 (Json.str "a bare JSON string") rfl,
   (verify_signature_malformed_input_false_none p100).2.2.1 [("signature", Json.str "s")] rfl,
   (verify_signature_malformed_input_false_none p100).2.2.2
     [("signed_field_names", Json.str "x")] rfl⟩

/-- Witness for C4: signing with no value for `transaction_uuid` fails naming
an absent field. -/
theorem signFields_missing_field_error_witness :
    ∃ missing, signFields ["total_amount", "transaction_uuid", "product_code"]
        [("total_amount", "100"), ("product_code", "EPAYTEST")] "8gBm/:&EnhH.1/q"
      = Except.error (SignError.missingField missing)
      ∧ missing ∈ ["total_amount", "transaction_uuid", "product_code"]
      ∧ [("total_amount", "100"), ("product_code", "EPAYTEST")].lookup missing = none :=
  signFields_missing_field_error ["total_amount", "transaction_uuid", "product_code"]
    [("total_amount", "100"), ("product_code", "EPAYTEST")] "8gBm/:&EnhH.1/q"
    "transaction_uuid" (by decide) rfl

/-- Witness for the amended C5 at concrete responses. -/
theorem get_status_error_and_unknown_amended_witness :
    get_status signed100 true
        (fun _ => { status_code := 404, text := "Not Found", jsonBody := Except.error "no body" })
      = Except.error ("Error fetching status: " ++ "Not Found")
    ∧ get_status signed100 true
        (fun _ => { status_code := 200, text := "", jsonBody := Except.ok (Json.obj []) })
      = Except.ok (Json.str "UNKNOWN")
    ∧ get_status signed100 true
        (fun _ => { status_code := 200, text := "",
                    jsonBody := Except.ok (Json.obj [("status", Json.str "PENDING")]) })
      = Except.ok (Json.str "PENDING") := by
  have h := get_status_error_and_unknown_amended signed100 100 "11-201-13" true rfl rfl
  exact ⟨h.1 { status_code := 404, text := "Not Found", jsonBody := Except.error "no body" }
      (by decide),
    h.2.1 [] rfl,
    h.2.2 [("status", Json.str "PENDING")] (Json.str "PENDING") rfl⟩

/-- Witness for C7 at concrete responses. -/
theorem is_completed_iff_status_complete_witness :
    is_completed signed100 true
        (fun _ => { status_code := 200, text := "",
                    jsonBody := Except.ok (Json.obj [("status", Json.str "COMPLETE")]) })
      = Except.ok true
    ∧ is_completed signed100 true
        (fun _ => { status_code := 200, text := "", jsonBody := Except.ok (Json.obj []) })
      = Except.ok false := by
  have h := is_completed_iff_status_complete signed100 true 100 "11-201-13" rfl rfl
  exact ⟨h.2.2.1, h.2.2.2⟩

/-- Witness for C8 on the concrete signed session. -/
theorem generate_form_payload_field_set_witness :
    generate_form_payload signed100 = Except.ok
      [("amount", "100"),
       ("product_delivery_charge", "0"),
       ("product_service_charge", "0"),
       ("total_amount", "100"),
       ("tax_amount", "0"),
       ("product_code", "EPAYTEST"),
       ("transaction_uuid", "11-201-13"),
       ("success_url", "http://localhost:8000/success/"),
       ("failure_url", "http://localhost:8000/failure/"),
       ("signed_field_names", "total_amount,transaction_uuid,product_code"),
       ("signature", "5DZywcrTKD0gia/rsSMcrRHmJl+4Tbol6S+lWgdJ94E=")] :=
  generate_form_payload_field_set signed100 100 "11-201-13"
    "5DZywcrTKD0gia/rsSMcrRHmJl+4Tbol6S+lWgdJ94E=" rfl rfl rfl

/-- Witness for C9: an otherwise well-formed payload still verifies as
`(false, none)` when the session has never signed anything. -/
theorem verify_signature_unsigned_session_false_none_witness :
    verify_signature p100 (Except.ok (Json.obj
      [("signed_field_names", Json.str "transaction_uuid"),
       ("transaction_uuid", Json.str "11-201-13"),
       ("signature", Json.str "anything")])) = (false, none) :=
  verify_signature_unsigned_session_false_none p100
    (Except.ok (Json.obj
      [("signed_field_names", Json.str "transaction_uuid"),
       ("transaction_uuid", Json.str "11-201-13"),
       ("signature", Json.str "anything")])) rfl

/-- Witness for C10: a payload carrying the correct stored signature but
missing a field its own `signed_field_names` declares is rejected. -/
theorem verify_signature_missing_declared_field_false_none_witness :
    verify_signature signed100 (Except.ok (Json.obj
      [("signed_field_names", Json.str "total_amount,extra_field"),
       ("total_amount", Json.str "100"),
       ("signature", Json.str "5DZywcrTKD0gia/rsSMcrRHmJl+4Tbol6S+lWgdJ94E=")]))
      = (false, none) :=
  verify_signature_missing_declared_field_false_none signed100
    "5DZywcrTKD0gia/rsSMcrRHmJl+4Tbol6S+lWgdJ94E="
    [("signed_field_names", Json.str "total_amount,extra_field"),
     ("total_amount", Json.str "100"),
     ("signature", Json.str "5DZywcrTKD0gia/rsSMcrRHmJl+4Tbol6S+lWgdJ94E=")]
    "total_amount,extra_field" "5DZywcrTKD0gia/rsSMcrRHmJl+4Tbol6S+lWgdJ94E="
    "extra_field" rfl rfl rfl rfl (by decide) rfl
